import Mathlib

/-!
Verification of the `@synet/weather` repository.

The development embeds, in a shallow way, the parts of the code that the
checked statements are about:

* the wildcard-capable event-subscription registry and the delegating
  façade (`Weather`): the implementation file shipping `on`/`once`/`off`
  and the event-emitting operations is not present in the source tree —
  only its test suites (`test/events.test.ts` and the wildcard-events
  test) are.  Those parts are therefore modelled from the specification,
  with the one behaviour the tests pin down directly (the cross-tier
  dispatch order) taken from the wildcard-events test;
* the `OpenWeather2` provider (`src/providers/openweather2.ts`), whose
  source is present and is translated definition by definition.

Strings are modelled as `List Char` (`String.toList` images), JavaScript
numbers as an inductive covering `NaN`, the two infinities and finite
(rational) values, and the network as an explicit outcome value handed to
the operation together with a count of HTTP requests actually issued.
-/

namespace SynetWeather

/-! ### Event types and subscription patterns -/

/-- Modelled from the spec: the three fixed façade event types (§4.2),
as lists of characters. -/
def wCurrent : List Char := "weather.current".toList

/-- Modelled from the spec: event type of the forecast operation. -/
def wForecast : List Char := "weather.forecast".toList

/-- Modelled from the spec: event type of the by-coordinates operation. -/
def wCoords : List Char := "weather.coords".toList

/-- Modelled from the spec: the bare wildcard pattern `*` (§3). -/
def starPat : List Char := ['*']

/-- Modelled from the spec: the `weather.*` pattern string. -/
def weatherStarPat : List Char := "weather.*".toList

/-- Modelled from the spec: the `weather.` domain pfx. -/
def weatherDot : List Char := "weather.".toList

/-- The list of event types the façade can publish (§4.2). -/
def facadeEventTypes : List (List Char) := [wCurrent, wForecast, wCoords]

/-- Modelled from the spec: a pattern is a domain wildcard when it ends
with the two characters `.*` (§3, "a pfx wildcard `domain.*`"). -/
def endsWithDotStar (p : List Char) : Bool :=
  match p.reverse with
  | '*' :: '.' :: _ => true
  | _ => false

/-- Modelled from the spec: dropping the trailing `*` of a domain
wildcard leaves the `domain.` pfx the event type is compared against. -/
def stripStar (p : List Char) : List Char := p.dropLast

/-- Modelled from the spec: a subscription entry of the registry (§3).
`id` is the registration sequence number; handlers are identified by the
subscription entry itself, dispatch computes the invocation sequence. -/
structure Subscription where
  id : Nat
  pattern : List Char
deriving DecidableEq, Repr

/-- Exact-type match: the subscription pattern equals the event type. -/
def matchesExact (t : List Char) (s : Subscription) : Bool :=
  decide (s.pattern = t)

/-- Bare-wildcard match: the pattern is the literal `*`. -/
def matchesStar (s : Subscription) : Bool :=
  decide (s.pattern = starPat)

/-- Domain-wildcard match: the pattern ends in `.*` and the event type
starts with the pattern minus its final `*`. -/
def matchesDomain (t : List Char) (s : Subscription) : Bool :=
  endsWithDotStar s.pattern && decide (stripStar s.pattern <+: t)

/-- Modelled from the spec (§3): a pattern matches an event type when it
is the bare wildcard, a domain wildcard whose `domain.` pfx starts the
type, or exactly equal to the type. -/
def patMatches (t : List Char) (s : Subscription) : Bool :=
  matchesExact t s || matchesStar s || matchesDomain t s

/-- Modelled from the repository's wildcard-events test: publishing an
event invokes the matching handlers tier by tier — the exact-type
subscriptions first, then the bare-wildcard subscriptions, then the
domain-wildcard subscriptions — each tier in registration order.  (The
spec's §4.2 instead claims a single registration-order pass; the test at
`Advanced Pattern Matching` expects the `*` handler registered second to
run before the `weather.*` handler registered first, which forces the
tiered order modelled here.) -/
def dispatch (subs : List Subscription) (t : List Char) : List Subscription :=
  subs.filter (matchesExact t) ++ subs.filter matchesStar ++ subs.filter (matchesDomain t)

/-- The claim's dispatch order (spec §4.2 wording): one pass over the
registry in registration order. -/
def dispatchRegistrationOrder (subs : List Subscription) (t : List Char) : List Subscription :=
  subs.filter (patMatches t)

/-- Tier of a subscription relative to an event type: 0 exact, 1 bare
wildcard, 2 anything else (domain wildcards in particular). -/
def tierRank (t : List Char) (s : Subscription) : Nat :=
  if s.pattern = t then 0 else if s.pattern = starPat then 1 else 2

/-! ### Auxiliary lemmas on the pattern matcher -/

theorem endsWithDotStar_shape {p : List Char} (h : endsWithDotStar p = true) :
    ∃ q, p = q ++ ['.', '*'] := by
  unfold endsWithDotStar at h
  rcases hr : p.reverse with _ | ⟨c, rest⟩
  · rw [hr] at h; simp at h
  · rcases rest with _ | ⟨c', rest'⟩
    · rw [hr] at h
      rcases hc : c with ⟨n⟩
      simp only [hc] at h
      split at h <;> simp_all
    · refine ⟨rest'.reverse, ?_⟩
      have hp : p = (c :: c' :: rest').reverse := by
        rw [← hr, List.reverse_reverse]
      rw [hr] at h
      have hcs : c = '*' ∧ c' = '.' := by
        by_cases h1 : c = '*' <;> by_cases h2 : c' = '.' <;> simp_all [endsWithDotStar]
      rw [hp, hcs.1, hcs.2]
      simp

/-- Prefixes of a list that end in a dot, computed explicitly. -/
def dotPrefixes (t : List Char) : List (List Char) :=
  (List.range (t.length + 1)).filterMap fun n =>
    let s := t.take n
    if s.getLast? = some '.' then some s else none

theorem mem_dotPrefixes {q t : List Char} (h : q ++ ['.'] <+: t) :
    q ++ ['.'] ∈ dotPrefixes t := by
  have htake : q ++ ['.'] = t.take (q ++ ['.']).length := List.prefix_iff_eq_take.mp h
  have hlen : (q ++ ['.']).length ≤ t.length := h.length_le
  unfold dotPrefixes
  rw [List.mem_filterMap]
  refine ⟨(q ++ ['.']).length, ?_, ?_⟩
  · rw [List.mem_range]; omega
  · rw [← htake]
    simp

theorem domain_pat_on_facade_type {p t : List Char} (ht : t ∈ facadeEventTypes)
    (hstar : endsWithDotStar p = true) (hpre : stripStar p <+: t) : p = weatherStarPat := by
  obtain ⟨q, hq⟩ := endsWithDotStar_shape hstar
  have hdrop : stripStar p = q ++ ['.'] := by
    rw [hq]
    unfold stripStar
    rw [show (q ++ ['.', '*'] : List Char) = (q ++ ['.']) ++ ['*'] by simp]
    exact List.dropLast_concat
  rw [hdrop] at hpre
  have hmem := mem_dotPrefixes hpre
  have hq' : q ++ ['.'] = weatherDot := by
    simp only [facadeEventTypes, List.mem_cons, List.not_mem_nil, or_false] at ht
    rcases ht with h | h | h
    · rw [h, show dotPrefixes wCurrent = [weatherDot] from by decide] at hmem
      simpa using hmem
    · rw [h, show dotPrefixes wForecast = [weatherDot] from by decide] at hmem
      simpa using hmem
    · rw [h, show dotPrefixes wCoords = [weatherDot] from by decide] at hmem
      simpa using hmem
  have hqq : q = "weather".toList := by
    have := congrArg List.dropLast hq'
    rwa [List.dropLast_concat, show weatherDot.dropLast = "weather".toList from by decide] at this
  rw [hq, hqq]
  decide

theorem facade_type_not_star {t : List Char} (ht : t ∈ facadeEventTypes) : t ≠ starPat := by
  simp only [facadeEventTypes, List.mem_cons, List.not_mem_nil, or_false] at ht
  rcases ht with h | h | h <;> rw [h] <;> decide

theorem facade_type_not_dotStar {t : List Char} (ht : t ∈ facadeEventTypes) :
    endsWithDotStar t = false := by
  simp only [facadeEventTypes, List.mem_cons, List.not_mem_nil, or_false] at ht
  rcases ht with h | h | h <;> rw [h] <;> decide

theorem facade_type_ne_weatherStar {t : List Char} (ht : t ∈ facadeEventTypes) :
    weatherStarPat ≠ t := by
  simp only [facadeEventTypes, List.mem_cons, List.not_mem_nil, or_false] at ht
  rcases ht with h | h | h <;> rw [h] <;> decide

theorem weatherDot_prefix_facade {t : List Char} (ht : t ∈ facadeEventTypes) :
    weatherDot <+: t := by
  simp only [facadeEventTypes, List.mem_cons, List.not_mem_nil, or_false] at ht
  rcases ht with h | h | h <;> rw [h] <;> decide

theorem matchesDomain_weatherStar {t : List Char} (ht : t ∈ facadeEventTypes)
    {s : Subscription} (hp : s.pattern = weatherStarPat) : matchesDomain t s = true := by
  unfold matchesDomain
  rw [hp, Bool.and_eq_true, decide_eq_true_iff]
  constructor
  · decide
  · have : stripStar weatherStarPat = weatherDot := by decide
    rw [this]
    exact weatherDot_prefix_facade ht

/-! ### C2 and C3: which handlers run, and in which order -/

/-- C2: for every event published by the façade (its type is one of the
three fixed façade event types), the set of triggered subscriptions is
exactly: those with pattern `*`, those with pattern `weather.*` (the
event type starting with `weather.`), and those whose pattern equals the
event type; an exact-type subscription is never triggered by an event of
a different type. -/
theorem dispatch_matching_subscriptions (subs : List Subscription) (t : List Char)
    (ht : t ∈ facadeEventTypes) (s : Subscription) :
    (s ∈ dispatch subs t ↔
      s ∈ subs ∧
        (s.pattern = starPat ∨ (s.pattern = weatherStarPat ∧ weatherDot <+: t) ∨
          s.pattern = t)) ∧
    (s.pattern ≠ starPat → endsWithDotStar s.pattern = false → s.pattern ≠ t →
      s ∉ dispatch subs t) := by
  have hchar : s ∈ dispatch subs t ↔
      s ∈ subs ∧
        (s.pattern = starPat ∨ (s.pattern = weatherStarPat ∧ weatherDot <+: t) ∨
          s.pattern = t) := by
    constructor
    · intro hmem
      unfold dispatch at hmem
      rw [List.mem_append, List.mem_append] at hmem
      rcases hmem with (h | h) | h
      · rw [List.mem_filter, matchesExact, decide_eq_true_iff] at h
        exact ⟨h.1, Or.inr (Or.inr h.2)⟩
      · rw [List.mem_filter, matchesStar, decide_eq_true_iff] at h
        exact ⟨h.1, Or.inl h.2⟩
      · rw [List.mem_filter] at h
        refine ⟨h.1, Or.inr (Or.inl ⟨?_, weatherDot_prefix_facade ht⟩)⟩
        have hd := h.2
        unfold matchesDomain at hd
        rw [Bool.and_eq_true, decide_eq_true_iff] at hd
        exact domain_pat_on_facade_type ht hd.1 hd.2
    · rintro ⟨hmem, hstar | ⟨hws, _⟩ | hexact⟩
      · unfold dispatch
        rw [List.mem_append, List.mem_append]
        exact Or.inl (Or.inr (List.mem_filter.mpr
          ⟨hmem, by rw [matchesStar, decide_eq_true_iff]; exact hstar⟩))
      · unfold dispatch
        rw [List.mem_append, List.mem_append]
        exact Or.inr (List.mem_filter.mpr ⟨hmem, matchesDomain_weatherStar ht hws⟩)
      · unfold dispatch
        rw [List.mem_append, List.mem_append]
        exact Or.inl (Or.inl (List.mem_filter.mpr
          ⟨hmem, by rw [matchesExact, decide_eq_true_iff]; exact hexact⟩))
  refine ⟨hchar, ?_⟩
  intro h1 h2 h3 hmem
  rcases (hchar.mp hmem).2 with h | ⟨h, _⟩ | h
  · exact h1 h
  · rw [h] at h2; exact absurd h2 (by decide)
  · exact h3 h

/-- C2 witness at a concrete registry and event type. -/
theorem dispatch_matching_subscriptions_witness :
    (⟨2, starPat⟩ : Subscription) ∈ dispatch [⟨1, weatherStarPat⟩, ⟨2, starPat⟩] wCurrent ∧
    (⟨3, wForecast⟩ : Subscription) ∉ dispatch [⟨3, wForecast⟩] wCurrent := by
  constructor
  · exact (dispatch_matching_subscriptions [⟨1, weatherStarPat⟩, ⟨2, starPat⟩] wCurrent
      (by decide) ⟨2, starPat⟩).1.mpr ⟨by decide, Or.inl rfl⟩
  · exact (dispatch_matching_subscriptions [⟨3, wForecast⟩] wCurrent
      (by decide) ⟨3, wForecast⟩).2 (by decide) (by decide) (by decide)

/-- C3 counterexample: the claim says the invocation order is the
registration order for all pattern forms.  With a `weather.*`
subscription registered first and a `*` subscription registered second,
publishing a `weather.current` event invokes the `*` handler first —
exactly the order the repository's wildcard-events test expects — so the
invocation sequence differs from the registration-order sequence. -/
theorem dispatch_not_registration_order :
    (dispatch [⟨1, weatherStarPat⟩, ⟨2, starPat⟩] wCurrent).map Subscription.id = [2, 1] ∧
    (dispatchRegistrationOrder [⟨1, weatherStarPat⟩, ⟨2, starPat⟩] wCurrent).map
      Subscription.id = [1, 2] ∧
    dispatch [⟨1, weatherStarPat⟩, ⟨2, starPat⟩] wCurrent ≠
      dispatchRegistrationOrder [⟨1, weatherStarPat⟩, ⟨2, starPat⟩] wCurrent := by
  refine ⟨by decide, by decide, by decide⟩

theorem tierRank_exact {t : List Char} {s : Subscription}
    (h : matchesExact t s = true) : tierRank t s = 0 := by
  rw [matchesExact, decide_eq_true_iff] at h
  unfold tierRank
  rw [if_pos h]

theorem tierRank_star {t : List Char} (ht : t ∈ facadeEventTypes) {s : Subscription}
    (h : matchesStar s = true) : tierRank t s = 1 := by
  rw [matchesStar, decide_eq_true_iff] at h
  unfold tierRank
  rw [if_neg, if_pos h]
  rw [h]
  exact fun hc => facade_type_not_star ht hc.symm

theorem tierRank_domain {t : List Char} (ht : t ∈ facadeEventTypes) {s : Subscription}
    (h : matchesDomain t s = true) : tierRank t s = 2 := by
  have hd := h
  unfold matchesDomain at hd
  rw [Bool.and_eq_true, decide_eq_true_iff] at hd
  have hp : s.pattern = weatherStarPat := domain_pat_on_facade_type ht hd.1 hd.2
  unfold tierRank
  rw [if_neg, if_neg]
  · rw [hp]; decide
  · rw [hp]; exact facade_type_ne_weatherStar ht

theorem pairwise_rank_const {l : List Subscription} {t : List Char} {c : Nat}
    (h : ∀ s ∈ l, tierRank t s = c) :
    List.Pairwise (fun a b => tierRank t a ≤ tierRank t b) l := by
  apply List.pairwise_iff_forall_sublist.mpr
  intro a b hab
  have ha : a ∈ l := hab.subset (by simp)
  have hb : b ∈ l := hab.subset (by simp)
  rw [h a ha, h b hb]

theorem filter_rank_const {l : List Subscription} {t : List Char} {c : Nat} (k : Nat)
    (h : ∀ s ∈ l, tierRank t s = c) :
    (l.filter fun s => tierRank t s == k) = if c = k then l else [] := by
  by_cases hck : c = k
  · rw [if_pos hck]
    apply List.filter_eq_self.mpr
    intro s hs
    rw [beq_iff_eq, h s hs, hck]
  · rw [if_neg hck]
    apply List.filter_eq_nil_iff.mpr
    intro s hs hps
    rw [beq_iff_eq, h s hs] at hps
    exact hck hps

theorem count_filter_of_false {l : List Subscription} {p : Subscription → Bool}
    {s : Subscription} (hp : p s = false) : (l.filter p).count s = 0 := by
  rw [List.count_eq_zero]
  intro hmem
  rw [List.mem_filter, hp] at hmem
  exact Bool.false_ne_true hmem.2

theorem star_not_domain {t : List Char} {s : Subscription}
    (h : matchesStar s = true) : matchesDomain t s = false := by
  rw [matchesStar, decide_eq_true_iff] at h
  rcases hmd : matchesDomain t s with _ | _
  · rfl
  · exfalso
    unfold matchesDomain at hmd
    rw [Bool.and_eq_true, h] at hmd
    exact absurd hmd.1 (by decide)

theorem exact_not_star {t : List Char} (ht : t ∈ facadeEventTypes) {s : Subscription}
    (h : matchesExact t s = true) : matchesStar s = false := by
  rw [matchesExact, decide_eq_true_iff] at h
  rw [matchesStar, decide_eq_false_iff_not, h]
  exact fun hc => facade_type_not_star ht hc

theorem exact_not_domain {t : List Char} (ht : t ∈ facadeEventTypes) {s : Subscription}
    (h : matchesExact t s = true) : matchesDomain t s = false := by
  rw [matchesExact, decide_eq_true_iff] at h
  rcases hmd : matchesDomain t s with _ | _
  · rfl
  · exfalso
    unfold matchesDomain at hmd
    rw [Bool.and_eq_true, h, facade_type_not_dotStar ht] at hmd
    exact Bool.false_ne_true hmd.1

/-- C3 amended: dispatch proceeds in non-decreasing tier order (exact
subscriptions, then bare-wildcard ones, then domain-wildcard ones), each
tier preserving registration order (it is a sublist of the registry),
every invoked subscription matches, every registered matching
subscription is invoked, and each registry entry is invoked at most as
often as it is registered (no duplicate invocation across tiers). -/
theorem dispatch_tier_order (subs : List Subscription) (t : List Char)
    (ht : t ∈ facadeEventTypes) :
    List.Pairwise (fun a b => tierRank t a ≤ tierRank t b) (dispatch subs t) ∧
    (∀ k, ((dispatch subs t).filter fun s => tierRank t s == k).Sublist subs) ∧
    (∀ s ∈ dispatch subs t, patMatches t s = true) ∧
    (∀ s ∈ subs, patMatches t s = true → s ∈ dispatch subs t) ∧
    (∀ s, (dispatch subs t).count s ≤ subs.count s) := by
  have hex : ∀ s ∈ subs.filter (matchesExact t), tierRank t s = 0 := fun s hs =>
    tierRank_exact (List.mem_filter.mp hs).2
  have hst : ∀ s ∈ subs.filter matchesStar, tierRank t s = 1 := fun s hs =>
    tierRank_star ht (List.mem_filter.mp hs).2
  have hdo : ∀ s ∈ subs.filter (matchesDomain t), tierRank t s = 2 := fun s hs =>
    tierRank_domain ht (List.mem_filter.mp hs).2
  refine ⟨?_, ?_, ?_, ?_, ?_⟩
  · unfold dispatch
    rw [List.pairwise_append, List.pairwise_append]
    refine ⟨⟨pairwise_rank_const hex, pairwise_rank_const hst, ?_⟩,
      pairwise_rank_const hdo, ?_⟩
    · intro a ha b hb
      rw [hex a ha, hst b hb]; omega
    · intro a ha b hb
      rw [List.mem_append] at ha
      rw [hdo b hb]
      rcases ha with ha | ha
      · rw [hex a ha]; omega
      · rw [hst a ha]; omega
  · intro k
    unfold dispatch
    rw [List.filter_append, List.filter_append,
      filter_rank_const k hex, filter_rank_const k hst, filter_rank_const k hdo]
    rcases k with _ | _ | _ | k
    · simp
    · simp
    · simp
    · simp
  · intro s hs
    unfold dispatch at hs
    rw [List.mem_append, List.mem_append] at hs
    unfold patMatches
    rcases hs with (h | h) | h
    · rw [(List.mem_filter.mp h).2]; simp
    · rw [(List.mem_filter.mp h).2]; simp
    · rw [(List.mem_filter.mp h).2]; simp
  · intro s hs hm
    unfold patMatches at hm
    rw [Bool.or_eq_true, Bool.or_eq_true] at hm
    unfold dispatch
    rw [List.mem_append, List.mem_append]
    rcases hm with (h | h) | h
    · exact Or.inl (Or.inl (List.mem_filter.mpr ⟨hs, h⟩))
    · exact Or.inl (Or.inr (List.mem_filter.mpr ⟨hs, h⟩))
    · exact Or.inr (List.mem_filter.mpr ⟨hs, h⟩)
  · intro s
    unfold dispatch
    rw [List.count_append, List.count_append]
    by_cases he : matchesExact t s = true
    · rw [count_filter_of_false (exact_not_star ht he),
        count_filter_of_false (exact_not_domain ht he)]
      simpa using (List.filter_sublist (l := subs) (p := matchesExact t)).count_le s
    · by_cases hs : matchesStar s = true
      · rw [count_filter_of_false (Bool.eq_false_iff.mpr he),
          count_filter_of_false (star_not_domain hs)]
        simpa using (List.filter_sublist (l := subs) (p := matchesStar)).count_le s
      · rw [count_filter_of_false (Bool.eq_false_iff.mpr he),
          count_filter_of_false (Bool.eq_false_iff.mpr hs)]
        simpa using (List.filter_sublist (l := subs) (p := matchesDomain t)).count_le s

/-- C3 amended-claim witness at a concrete registry and event type. -/
theorem dispatch_tier_order_witness :
    List.Pairwise
      (fun a b => tierRank wCurrent a ≤ tierRank wCurrent b)
      (dispatch [⟨1, weatherStarPat⟩, ⟨2, starPat⟩, ⟨3, wCurrent⟩] wCurrent) :=
  (dispatch_tier_order [⟨1, weatherStarPat⟩, ⟨2, starPat⟩, ⟨3, wCurrent⟩] wCurrent
    (by decide)).1

/-! ### The delegating façade: one event per settled call (C1, C4) -/

/-- Modelled from the spec: the three façade weather operations (§4.2). -/
inductive WeatherOp where
  | getCurrentWeather
  | getForecast
  | getWeatherByCoords
deriving DecidableEq, Repr

/-- Modelled from the spec: the fixed event-type assignment per
operation (§4.2: current-conditions → `weather.current`, forecast →
`weather.forecast`, by-coordinates → `weather.coords`). -/
def WeatherOp.eventType : WeatherOp → List Char
  | .getCurrentWeather => wCurrent
  | .getForecast => wForecast
  | .getWeatherByCoords => wCoords

/-- Operation name carried in the event's `operation` field. -/
def WeatherOp.opName : WeatherOp → String
  | .getCurrentWeather => "getCurrentWeather"
  | .getForecast => "getForecast"
  | .getWeatherByCoords => "getWeatherByCoords"

/-- Modelled from the spec: a provider failure value; the façade only
reads its `message` field and re-raises the value itself (§7). -/
structure ProviderFailure where
  message : String
deriving DecidableEq, Repr

/-- Modelled from the spec: the event record (§3): type, source unit,
operation, the resolved unit system and elapsed duration from the `data`
mapping, and the optional `error.message` field.  The remaining `data`
entries (query parameters, result fields) do not bear on the claims. -/
structure WeatherEvent where
  type : List Char
  unitId : String
  operation : String
  units : String
  duration : Int
  error : Option String
deriving DecidableEq, Repr

/-- An observable action of one façade call: the provider delegation or
the publication of an event, in the order they happen. -/
inductive FacadeAction where
  | providerCall (op : WeatherOp)
  | publish (e : WeatherEvent)
deriving DecidableEq, Repr

def FacadeAction.isPublish : FacadeAction → Bool
  | .publish _ => true
  | .providerCall _ => false

/-- Modelled from the spec: the event built at step 4a/4b (§4.2) once the
provider call has settled with `outcome`: success events carry no error
field, failure events carry the failure's message. -/
def mkEvent (op : WeatherOp) (units : String) (elapsed : Int)
    (outcome : Except ProviderFailure α) : WeatherEvent :=
  { type := op.eventType
    unitId := "weather"
    operation := op.opName
    units := units
    duration := elapsed
    error := match outcome with
      | .ok _ => none
      | .error e => some e.message }

/-- Modelled from the spec: one façade operation call whose provider
call settles (§4.2, algorithm steps 1–4).  The effective unit system is
the override if present, else the façade default; the elapsed duration
is measured around the provider call; on success the result is returned
after publishing the success event, on failure the identical failure
value is re-raised after publishing the error event.  The returned
action list records the call's observable steps in order. -/
def facadeCall (op : WeatherOp) (unitsOverride : Option String) (defaultUnits : String)
    (start now : Int) (outcome : Except ProviderFailure α) :
    Except ProviderFailure α × List FacadeAction :=
  let units := unitsOverride.getD defaultUnits
  let elapsed := now - start
  match outcome with
  | .ok v => (.ok v, [.providerCall op, .publish (mkEvent op units elapsed (.ok v))])
  | .error e =>
      (.error e,
        [.providerCall op, .publish (mkEvent op units elapsed (.error (α := α) e))])

/-- C1: for every façade weather operation call whose provider call
settles, exactly one event is published — never zero, never both a
success and an error event — its type is the operation's fixed type, and
the publication happens after the provider call in the action order. -/
theorem facade_publishes_exactly_one_event (op : WeatherOp)
    (unitsOverride : Option String) (defaultUnits : String) (start now : Int)
    (outcome : Except ProviderFailure α) :
    ∃ e : WeatherEvent,
      (facadeCall op unitsOverride defaultUnits start now outcome).2 =
        [FacadeAction.providerCall op, FacadeAction.publish e] ∧
      e.type = op.eventType ∧
      ((facadeCall op unitsOverride defaultUnits start now outcome).2.filter
        FacadeAction.isPublish).length = 1 := by
  rcases outcome with v | e
  · exact ⟨mkEvent op (unitsOverride.getD defaultUnits) (now - start) (.error (α := α) v),
      rfl, rfl, rfl⟩
  · exact ⟨mkEvent op (unitsOverride.getD defaultUnits) (now - start) (.ok e),
      rfl, rfl, rfl⟩

/-- C4: when the provider call fails, the façade re-raises the identical
failure value (never swallowed or replaced) after publishing exactly one
error event of the operation's type whose `error.message` equals that
failure's message. -/
theorem facade_error_passthrough (op : WeatherOp) (unitsOverride : Option String)
    (defaultUnits : String) (start now : Int) (err : ProviderFailure) :
    (facadeCall (α := α) op unitsOverride defaultUnits start now (.error err)).1 =
      .error err ∧
    ∃ e : WeatherEvent,
      (facadeCall (α := α) op unitsOverride defaultUnits start now (.error err)).2 =
        [FacadeAction.providerCall op, FacadeAction.publish e] ∧
      e.error = some err.message ∧
      e.type = op.eventType := by
  exact ⟨rfl,
    mkEvent op (unitsOverride.getD defaultUnits) (now - start) (.error (α := α) err),
    rfl, rfl, rfl⟩

/-! ### The OpenWeather2 provider (translated from
`src/providers/openweather2.ts`) -/

/-- A JavaScript number value: `NaN`, an infinity, or a finite value
(modelled as a rational). -/
inductive JSNum where
  | nan
  | inf (pos : Bool)
  | num (q : ℚ)
deriving DecidableEq, Repr

/-- JavaScript `<` on numbers: any comparison involving `NaN` is false;
infinities compare in the usual way. -/
def JSNum.lt : JSNum → JSNum → Bool
  | .nan, _ => false
  | _, .nan => false
  | .inf b, .inf c => !b && c
  | .inf b, .num _ => !b
  | .num _, .inf c => c
  | .num a, .num b => decide (a < b)

/-- A runtime value passed in a latitude/longitude position: either a
number (`typeof x === 'number'`, which includes `NaN` and the
infinities) or some non-number value. -/
inductive CoordArg where
  | number (v : JSNum)
  | other
deriving DecidableEq, Repr

/-- The `typeof x === 'number'` test. -/
def CoordArg.isNumberType : CoordArg → Bool
  | .number _ => true
  | .other => false

/-- Error message of `openweather2.ts` line 156/180 (the spec's
`InvalidArgument` kind for coordinates). -/
def errCoordsRequired : String := "[OpenWeather2] Valid latitude and longitude are required"

/-- Error message of `openweather2.ts` line 160/184 (the spec's
`OutOfRange` kind). -/
def errInvalidCoords : String := "[OpenWeather2] Invalid coordinates"

/-- Error message for HTTP 404 (the spec's `NotFound` kind). -/
def errNotFound : String := "[OpenWeather2] Location not found"

/-- Error message for HTTP 401 (the spec's `Unauthorized` kind). -/
def errInvalidKey : String := "[OpenWeather2] Invalid API key"

/-- Error message for any other non-2xx status (the spec's
`UpstreamError` kind), carrying the status code. -/
def errApiError (status : Nat) : String := "[OpenWeather2] API error: " ++ toString status

/-- Error message of the constructor when the API key is falsy. -/
def errApiKeyRequired : String := "[OpenWeather2] API key is required"

/-- Coordinate validation as written at the top of
`OpenWeather2.getForecast` and `OpenWeather2.getWeatherByCoords`:
first `typeof lat !== 'number' || typeof lon !== 'number'`, then
`lat < -90 || lat > 90 || lon < -180 || lon > 180` (with JavaScript
comparison semantics, under which every comparison with `NaN` is
false). -/
def validateCoordArgs (lat lon : CoordArg) : Option String :=
  if !(lat.isNumberType && lon.isNumberType) then some errCoordsRequired
  else
    match lat, lon with
    | .number la, .number lo =>
        if JSNum.lt la (.num (-90)) || JSNum.lt (.num 90) la ||
            JSNum.lt lo (.num (-180)) || JSNum.lt (.num 180) lo then
          some errInvalidCoords
        else none
    | _, _ => none

/-- Outcome of the single outbound `fetch` of `makeRequest`: either a
response with a status code and parsed JSON body, or a rejection
(network failure or timeout abort) with a message. -/
inductive HttpOutcome (β : Type) where
  | response (status : Nat) (body : β)
  | failure (msg : String)

/-- The `Response.ok` flag: status in the range 200–299. -/
def statusOk (s : Nat) : Bool := 200 ≤ s && s < 300

/-- `OpenWeather2.makeRequest`: a rejected fetch is re-thrown unchanged;
a response with `!response.ok` is mapped on its status code alone —
404 → location not found, 401 → invalid API key, anything else → the
generic API error carrying the status; an ok response is returned. -/
def makeRequest (net : HttpOutcome β) : Except String (Nat × β) :=
  match net with
  | .failure m => .error m
  | .response s body =>
      if !statusOk s then
        if s = 404 then .error errNotFound
        else if s = 401 then .error errInvalidKey
        else .error (errApiError s)
      else .ok (s, body)

/-- Configuration record of `OpenWeather2` (`types.ts`): fields that can
be absent at runtime are options. -/
structure OpenWeather2Config where
  apiKey : Option String
  timeout : Option Nat
  baseUrl : Option String
deriving DecidableEq, Repr

/-- The provider state after successful construction. -/
structure OpenWeather2 where
  apiKey : String
  timeout : Nat
  baseUrl : String
deriving DecidableEq, Repr

/-- The default base URL of the constructor. -/
def defaultBaseUrl : String := "https://api.openweathermap.org/data/2.5"

/-- JavaScript `a || d` for an optional number: absent and `0` are
falsy. -/
def jsOrNat (o : Option Nat) (d : Nat) : Nat :=
  match o with
  | none => d
  | some n => if n = 0 then d else n

/-- JavaScript `a || d` for an optional string: absent and the empty
string are falsy. -/
def jsOrStr (o : Option String) (d : String) : String :=
  match o with
  | none => d
  | some s => if s = "" then d else s

/-- The `OpenWeather2` constructor: throws when `!config.apiKey`
(absent or empty string), otherwise stores the key and applies the
`||` defaults for timeout (5000 ms) and base URL. -/
def OpenWeather2.make (c : OpenWeather2Config) : Except String OpenWeather2 :=
  if c.apiKey.getD "" = "" then .error errApiKeyRequired
  else
    .ok
      { apiKey := c.apiKey.getD ""
        timeout := jsOrNat c.timeout 5000
        baseUrl := jsOrStr c.baseUrl defaultBaseUrl }

/-- JavaScript `Math.round`: half-up rounding (also for negatives:
`Math.round(-2.5) = -2`). -/
def jsRound (q : ℚ) : Int := Int.floor (q + 1/2)

/-- One entry of the OpenWeather forecast time series (`list[i]`): Unix
timestamp, temperature, leading weather description/icon, and the
optional `rain['3h']` field. -/
structure ForecastItem where
  dt : Int
  temp : ℚ
  description : String
  icon : String
  rain3h : Option ℚ
deriving DecidableEq, Repr

instance : Inhabited ForecastItem := ⟨⟨0, 0, "", "", none⟩⟩

/-- The `city` part of the forecast response (only the fields the
transform reads). -/
structure ForecastCity where
  name : String
  country : String
deriving DecidableEq, Repr

/-- The forecast response body. -/
structure ForecastResponse where
  city : ForecastCity
  list : List ForecastItem
deriving DecidableEq, Repr

/-- One daily entry of the produced forecast.  The `date` field holds
the UTC day number `⌊dt / 86400⌋` standing for the ISO date string
`new Date(dt * 1000).toISOString().split('T')[0]` (the two determine
each other). -/
structure DailyForecast where
  date : Int
  high : Int
  low : Int
  description : String
  icon : String
  precipitation : ℚ
deriving DecidableEq, Repr

/-- The produced forecast value (capture timestamp omitted — it is wall
clock time and no claim touches it). -/
structure ForecastData where
  location : String
  country : String
  forecasts : List DailyForecast
  units : String
deriving DecidableEq, Repr

/-- The UTC calendar date of a Unix timestamp, as a day number: the
grouping key `new Date(item.dt * 1000).toISOString().split('T')[0]`. -/
def dateKey (dt : Int) : Int := Int.fdiv dt 86400

/-- `new Date(d.dt * 1000).getHours()`: the hour of day in local time,
for a local zone `tz` seconds ahead of UTC. -/
def localHours (tz dt : Int) : Int := (Int.fdiv (dt + tz) 3600).emod 24

/-- One step of the grouping loop: `dailyData.get(date).push(item)`,
inserting a fresh singleton bucket at the end on first sight of a date
(JavaScript `Map` preserves key insertion order). -/
def insertItem (m : List (Int × List ForecastItem)) (k : Int) (it : ForecastItem) :
    List (Int × List ForecastItem) :=
  match m with
  | [] => [(k, [it])]
  | (k', xs) :: rest =>
      if k' = k then (k', xs ++ [it]) :: rest else (k', xs) :: insertItem rest k it

/-- The grouping loop of `transformForecastData`: group the time-series
entries by calendar date, in order of first appearance. -/
def groupByDate (items : List ForecastItem) : List (Int × List ForecastItem) :=
  items.foldl (fun m it => insertItem m (dateKey it.dt) it) []

/-- The per-day body of `transformForecastData`: daily high/low are the
rounded `Math.max`/`Math.min` over the day's temperatures, the
description and icon come from the entry at local hour 12 (falling back
to the day's first entry), and precipitation is the `reduce` sum of the
`rain['3h']` fields (missing ones counting 0). -/
def processDay (tz : Int) (k : Int) (day : List ForecastItem) : DailyForecast :=
  match day with
  | [] => ⟨k, 0, 0, "", "", 0⟩
  | h :: t =>
      { date := k
        high := jsRound ((t.map ForecastItem.temp).foldl max h.temp)
        low := jsRound ((t.map ForecastItem.temp).foldl min h.temp)
        description :=
          (((h :: t).find? fun d => localHours tz d.dt == 12).getD h).description
        icon := (((h :: t).find? fun d => localHours tz d.dt == 12).getD h).icon
        precipitation := (h :: t).foldl (fun sum d => sum + d.rain3h.getD 0) 0 }

/-- `WeatherUnit.transformForecastData` (`weather.unit.ts`): the input
series is first cut to `days * 8` three-hour samples, grouped by date,
and the produced daily list is cut to the requested `days` (1–5,
validated by the caller `getForecast`); `units` is the unit's configured
default. -/
def transformForecastData (tz : Int) (data : ForecastResponse) (days : Nat)
    (units : String) : ForecastData :=
  { location := data.city.name
    country := data.city.country
    forecasts := ((groupByDate (data.list.take (days * 8))).take days).map
      fun g => processDay tz g.1 g.2
    units := units }

/-- `OpenWeather2.transformForecastData` (`openweather2.ts`): same daily
construction, grouping the whole series and capping the daily list at 5;
`units` is the request's unit system. -/
def transformForecastDataOW (tz : Int) (data : ForecastResponse) (units : String) :
    ForecastData :=
  { location := data.city.name
    country := data.city.country
    forecasts := ((groupByDate data.list).take 5).map fun g => processDay tz g.1 g.2
    units := units }

/-- The `main` block of a current-weather response. -/
structure OWMain where
  temp : ℚ
  feels_like : ℚ
  humidity : ℚ
  pressure : ℚ
deriving DecidableEq, Repr

/-- One `weather[i]` block of a current-weather response. -/
structure OWDesc where
  description : String
  icon : String
deriving DecidableEq, Repr

instance : Inhabited OWDesc := ⟨⟨"", ""⟩⟩

/-- The current-weather response body (optional blocks as options). -/
structure OWResponse where
  name : String
  country : String
  main : OWMain
  weather : List OWDesc
  windSpeed : Option ℚ
  windDeg : Option ℚ
  visibility : Option ℚ
  uvi : Option ℚ
deriving DecidableEq, Repr

/-- The produced current-weather value. -/
structure WeatherData where
  location : String
  country : String
  temperature : Int
  feelsLike : Int
  humidity : ℚ
  pressure : ℚ
  description : String
  icon : String
  windSpeed : ℚ
  windDirection : ℚ
  visibility : ℚ
  uvIndex : Option ℚ
  units : String
deriving DecidableEq, Repr

/-- `OpenWeather2.transformWeatherData`: project the response into the
normalized snapshot, rounding the temperatures and defaulting the
optional wind/visibility fields to 0. -/
def transformWeatherData (data : OWResponse) (units : String) : WeatherData :=
  { location := data.name
    country := data.country
    temperature := jsRound data.main.temp
    feelsLike := jsRound data.main.feels_like
    humidity := data.main.humidity
    pressure := data.main.pressure
    description := data.weather.headI.description
    icon := data.weather.headI.icon
    windSpeed := data.windSpeed.getD 0
    windDirection := data.windDeg.getD 0
    visibility := data.visibility.getD 0
    uvIndex := data.uvi
    units := units }

/-- `OpenWeather2.getForecast`: coordinate validation first, then one
HTTP request whose settled outcome is `net`; the second component counts
the HTTP requests actually issued.  The URL building (API key, base URL,
unit system) does not influence the modelled result, which is delivered
through `net`. -/
def OpenWeather2.getForecast (lat lon : CoordArg) (units : String) (tz : Int)
    (net : HttpOutcome ForecastResponse) : Except String ForecastData × Nat :=
  match validateCoordArgs lat lon with
  | some e => (.error e, 0)
  | none =>
      match makeRequest net with
      | .error e => (.error e, 1)
      | .ok (_, body) => (.ok (transformForecastDataOW tz body units), 1)

/-- `OpenWeather2.getWeatherByCoords`: same validation, then one HTTP
request and the current-weather projection. -/
def OpenWeather2.getWeatherByCoords (lat lon : CoordArg) (units : String)
    (net : HttpOutcome OWResponse) : Except String WeatherData × Nat :=
  match validateCoordArgs lat lon with
  | some e => (.error e, 0)
  | none =>
      match makeRequest net with
      | .error e => (.error e, 1)
      | .ok (_, body) => (.ok (transformWeatherData body units), 1)

/-- `OpenWeather2.validateConnection`: issue the known-good London query
and report `response.ok`; every thrown failure is caught and degrades to
`false`. -/
def OpenWeather2.validateConnection (net : HttpOutcome β) : Except String Bool :=
  match makeRequest net with
  | .ok (s, _) => .ok (statusOk s)
  | .error _ => .ok false

/-! ### C5–C7, C9, C10: provider validation, status mapping,
connection check, construction -/

/-- C5 (code bug evaluation): `NaN` has JavaScript type `'number'` and
compares false against every bound, so a `NaN` latitude passes both
validation checks of `getForecast` and `getWeatherByCoords` and an HTTP
request is issued (request count 1); the call then fails with whatever
the network produced instead of the invalid-argument error the spec and
the repository's (skipped) parameter-validation test demand. -/
theorem getForecast_nan_reaches_network :
    validateCoordArgs (.number .nan) (.number (.num 0)) = none ∧
    OpenWeather2.getForecast (.number .nan) (.number (.num 0)) "metric" 0
      (HttpOutcome.failure "fetch failed") = (.error "fetch failed", 1) ∧
    OpenWeather2.getWeatherByCoords (.number .nan) (.number (.num 0)) "metric"
      (HttpOutcome.failure "fetch failed") = (.error "fetch failed", 1) := by
  refine ⟨rfl, rfl, rfl⟩

/-- C6: finite coordinates outside the valid ranges are rejected with
the invalid-coordinates (`OutOfRange`) error by both coordinate-taking
operations, with no HTTP request issued (request count 0). -/
theorem coords_out_of_range_rejected (lat lon : ℚ) (units : String) (tz : Int)
    (netF : HttpOutcome ForecastResponse) (netW : HttpOutcome OWResponse)
    (h : lat < -90 ∨ lat > 90 ∨ lon < -180 ∨ lon > 180) :
    OpenWeather2.getForecast (.number (.num lat)) (.number (.num lon)) units tz netF =
      (.error errInvalidCoords, 0) ∧
    OpenWeather2.getWeatherByCoords (.number (.num lat)) (.number (.num lon)) units netW =
      (.error errInvalidCoords, 0) := by
  have hv : validateCoordArgs (.number (.num lat)) (.number (.num lon)) =
      some errInvalidCoords := by
    unfold validateCoordArgs
    rcases h with h | h | h | h <;>
      simp [CoordArg.isNumberType, JSNum.lt, h]
  constructor
  · unfold OpenWeather2.getForecast
    rw [hv]
  · unfold OpenWeather2.getWeatherByCoords
    rw [hv]

/-- C6 witness at latitude −91. -/
theorem coords_out_of_range_rejected_witness :
    OpenWeather2.getForecast (.number (.num (-91))) (.number (.num 0)) "metric" 0
      (HttpOutcome.failure "unused") = (.error errInvalidCoords, 0) ∧
    OpenWeather2.getWeatherByCoords (.number (.num (-91))) (.number (.num 0)) "metric"
      (HttpOutcome.failure "unused") = (.error errInvalidCoords, 0) :=
  coords_out_of_range_rejected (-91) 0 "metric" 0 (HttpOutcome.failure "unused")
    (HttpOutcome.failure "unused") (Or.inl (by norm_num))

/-- C7: for a completed HTTP response with a non-2xx status the
resulting error is a function of the status code alone: 404 gives the
location-not-found error, 401 the invalid-API-key error, and any other
status the generic API error carrying that status code; the response
body does not influence the error. -/
theorem makeRequest_status_mapping {β : Type} (s : Nat) (b b' : β)
    (hs : statusOk s = false) :
    (s = 404 → makeRequest (HttpOutcome.response s b) = .error errNotFound) ∧
    (s = 401 → makeRequest (HttpOutcome.response s b) = .error errInvalidKey) ∧
    (s ≠ 404 → s ≠ 401 →
      makeRequest (HttpOutcome.response s b) = .error (errApiError s)) ∧
    makeRequest (HttpOutcome.response s b) = makeRequest (HttpOutcome.response s b') := by
  refine ⟨?_, ?_, ?_, ?_⟩
  · intro h4
    subst h4
    simp [makeRequest, hs]
  · intro h1
    subst h1
    simp [makeRequest, hs]
  · intro h4 h1
    simp [makeRequest, hs, h4, h1]
  · simp [makeRequest, hs]

/-- C7 witness at status 500. -/
theorem makeRequest_status_mapping_witness :
    makeRequest (HttpOutcome.response 500 ()) = .error (errApiError 500) :=
  (makeRequest_status_mapping 500 () () (by decide)).2.2.1 (by decide) (by decide)

/-- C9: `validateConnection` always returns a boolean and never throws;
every upstream failure (non-2xx status) and every transport or timeout
failure (a rejected fetch) degrades to `false`. -/
theorem validateConnection_never_throws :
    (∀ net : HttpOutcome Unit, ∃ b : Bool, OpenWeather2.validateConnection net = .ok b) ∧
    (∀ (s : Nat) (u : Unit), statusOk s = false →
      OpenWeather2.validateConnection (HttpOutcome.response s u) = .ok false) ∧
    (∀ m : String,
      OpenWeather2.validateConnection (HttpOutcome.failure (β := Unit) m) = .ok false) := by
  refine ⟨?_, ?_, ?_⟩
  · intro net
    unfold OpenWeather2.validateConnection
    rcases hmr : makeRequest net with e | ⟨s, u⟩
    · exact ⟨false, rfl⟩
    · exact ⟨statusOk s, rfl⟩
  · intro s u hs
    unfold OpenWeather2.validateConnection
    rcases hmr : makeRequest (HttpOutcome.response s u) with e | ⟨s', u'⟩
    · rfl
    · exfalso
      simp [makeRequest, hs] at hmr
      split at hmr
      · exact Except.noConfusion hmr
      · split at hmr <;> exact Except.noConfusion hmr
  · intro m
    rfl

/-- C9 witness at status 503 and at a transport failure. -/
theorem validateConnection_never_throws_witness :
    OpenWeather2.validateConnection (HttpOutcome.response 503 ()) = .ok false :=
  validateConnection_never_throws.2.1 503 () (by decide)

/-- C10: the `OpenWeather2` constructor throws the API-key-required
error exactly when the configured key is absent or the empty string, and
a successful construction defaults the timeout to 5000 ms and the base
URL to the OpenWeatherMap v2.5 endpoint whenever those fields are
absent. -/
theorem openweather2_construction (c : OpenWeather2Config) :
    (OpenWeather2.make c = .error errApiKeyRequired ↔
      c.apiKey = none ∨ c.apiKey = some "") ∧
    ∀ p : OpenWeather2, OpenWeather2.make c = .ok p →
      (c.timeout = none → p.timeout = 5000) ∧
      (c.baseUrl = none → p.baseUrl = defaultBaseUrl) := by
  obtain ⟨ak, tmo, bu⟩ := c
  constructor
  · rcases ak with _ | s
    · simp [OpenWeather2.make]
    · by_cases hs : s = ""
      · subst hs
        simp [OpenWeather2.make]
      · simp [OpenWeather2.make, hs]
  · intro p hp
    rcases ak with _ | s
    · simp [OpenWeather2.make] at hp
    · by_cases hs : s = ""
      · subst hs
        simp [OpenWeather2.make] at hp
      · simp [OpenWeather2.make, hs] at hp
        constructor
        · intro hto
          subst hto
          rw [← hp]
          rfl
        · intro hbu
          subst hbu
          rw [← hp]
          rfl

/-- C10 witness: a one-field config gets both defaults. -/
theorem openweather2_construction_witness :
    (OpenWeather2.make ⟨some "key", none, none⟩ = .error errApiKeyRequired ↔
      (some "key" = none ∨ some "key" = some "")) ∧
    ((⟨"key", 5000, defaultBaseUrl⟩ : OpenWeather2).timeout = 5000 ∧
      (⟨"key", 5000, defaultBaseUrl⟩ : OpenWeather2).baseUrl = defaultBaseUrl) :=
  ⟨(openweather2_construction ⟨some "key", none, none⟩).1,
    ((openweather2_construction ⟨some "key", none, none⟩).2
        ⟨"key", 5000, defaultBaseUrl⟩ (by rfl)).1 rfl,
    ((openweather2_construction ⟨some "key", none, none⟩).2
        ⟨"key", 5000, defaultBaseUrl⟩ (by rfl)).2 rfl⟩

/-! ### C8: the daily forecast construction -/

/-- `M` is the maximum of the values in `l`. -/
def IsMaxOf (M : ℚ) (l : List ℚ) : Prop := M ∈ l ∧ ∀ x ∈ l, x ≤ M

/-- `m` is the minimum of the values in `l`. -/
def IsMinOf (m : ℚ) (l : List ℚ) : Prop := m ∈ l ∧ ∀ x ∈ l, m ≤ x

theorem foldl_max_spec (a : ℚ) (l : List ℚ) : IsMaxOf (l.foldl max a) (a :: l) := by
  induction l generalizing a with
  | nil => exact ⟨by simp, by simp⟩
  | cons b t ih =>
    obtain ⟨hmem, hbound⟩ := ih (max a b)
    rw [List.foldl_cons]
    constructor
    · rcases List.mem_cons.mp hmem with h1 | h1
      · rcases max_choice a b with h | h
        · rw [h1, h]; simp
        · rw [h1, h]; simp
      · simp [h1]
    · intro x hx
      rcases List.mem_cons.mp hx with h | h
      · subst h
        exact le_trans (le_max_left x b) (hbound (max x b) (List.mem_cons_self _ _))
      · rcases List.mem_cons.mp h with h' | h'
        · subst h'
          exact le_trans (le_max_right a x) (hbound (max a x) (List.mem_cons_self _ _))
        · exact hbound x (List.mem_cons_of_mem _ h')

theorem foldl_min_spec (a : ℚ) (l : List ℚ) : IsMinOf (l.foldl min a) (a :: l) := by
  induction l generalizing a with
  | nil => exact ⟨by simp, by simp⟩
  | cons b t ih =>
    obtain ⟨hmem, hbound⟩ := ih (min a b)
    rw [List.foldl_cons]
    constructor
    · rcases List.mem_cons.mp hmem with h1 | h1
      · rcases min_choice a b with h | h
        · rw [h1, h]; simp
        · rw [h1, h]; simp
      · simp [h1]
    · intro x hx
      rcases List.mem_cons.mp hx with h | h
      · subst h
        exact le_trans (hbound (min x b) (List.mem_cons_self _ _)) (min_le_left x b)
      · rcases List.mem_cons.mp h with h' | h'
        · subst h'
          exact le_trans (hbound (min a x) (List.mem_cons_self _ _)) (min_le_right a x)
        · exact hbound x (List.mem_cons_of_mem _ h')

theorem foldl_add_rain (c : ℚ) (l : List ForecastItem) :
    l.foldl (fun sum d => sum + d.rain3h.getD 0) c =
      c + (l.map fun d => d.rain3h.getD 0).sum := by
  induction l generalizing c with
  | nil => simp
  | cons h t ih =>
    rw [List.foldl_cons, ih, List.map_cons, List.sum_cons, add_assoc]

theorem insertItem_nonempty (m : List (Int × List ForecastItem)) (k : Int)
    (it : ForecastItem) :
    (∀ g ∈ m, g.2 ≠ []) → ∀ g ∈ insertItem m k it, g.2 ≠ [] := by
  induction m with
  | nil =>
    intro _ g hg
    simp only [insertItem, List.mem_singleton] at hg
    rw [hg]
    simp
  | cons hd tl ih =>
    intro h g hg
    obtain ⟨k', xs⟩ := hd
    unfold insertItem at hg
    by_cases hk : k' = k
    · rw [if_pos hk] at hg
      rcases List.mem_cons.mp hg with h1 | h1
      · rw [h1]; simp
      · exact h g (List.mem_cons_of_mem _ h1)
    · rw [if_neg hk] at hg
      rcases List.mem_cons.mp hg with h1 | h1
      · rw [h1]; exact h (k', xs) (by simp)
      · exact ih (fun g hg => h g (List.mem_cons_of_mem _ hg)) g h1

theorem groupByDate_nonempty (items : List ForecastItem) :
    ∀ g ∈ groupByDate items, g.2 ≠ [] := by
  suffices hgen : ∀ m : List (Int × List ForecastItem), (∀ g ∈ m, g.2 ≠ []) →
      ∀ g ∈ items.foldl (fun m it => insertItem m (dateKey it.dt) it) m, g.2 ≠ [] by
    exact hgen [] (by simp)
  induction items with
  | nil =>
    intro m hm
    simpa using hm
  | cons it rest ih =>
    intro m hm
    rw [List.foldl_cons]
    exact ih _ (insertItem_nonempty _ _ _ hm)

/-- C8: every daily forecast entry produced by `transformForecastData`
for a requested day count of 1–5 comes from one calendar-date group of
the (day-capped) time series: its high and low are the rounded maximum
and minimum temperature over that date's samples, its description and
icon come from the sample at local hour 12 (falling back to the date's
first sample), and its precipitation is the sum of the samples' rain
fields; the daily list is capped to the requested day count. -/
theorem forecast_daily_construction (tz : Int) (data : ForecastResponse) (days : Nat)
    (units : String) (_h1 : 1 ≤ days) (_h5 : days ≤ 5) :
    (transformForecastData tz data days units).forecasts.length ≤ days ∧
    ∀ f ∈ (transformForecastData tz data days units).forecasts,
      ∃ g ∈ groupByDate (data.list.take (days * 8)),
        g.2 ≠ [] ∧ f.date = g.1 ∧
        (∃ M, IsMaxOf M (g.2.map ForecastItem.temp) ∧ f.high = jsRound M) ∧
        (∃ m, IsMinOf m (g.2.map ForecastItem.temp) ∧ f.low = jsRound m) ∧
        f.description =
          ((g.2.find? fun d => localHours tz d.dt == 12).getD g.2.headI).description ∧
        f.icon = ((g.2.find? fun d => localHours tz d.dt == 12).getD g.2.headI).icon ∧
        f.precipitation = (g.2.map fun d => d.rain3h.getD 0).sum := by
  constructor
  · unfold transformForecastData
    simp only [List.length_map, List.length_take]
    omega
  · intro f hf
    unfold transformForecastData at hf
    simp only [List.mem_map] at hf
    obtain ⟨g, hgtake, hfg⟩ := hf
    have hgmem : g ∈ groupByDate (data.list.take (days * 8)) :=
      List.take_subset days _ hgtake
    obtain ⟨k, day⟩ := g
    have hne : day ≠ [] := groupByDate_nonempty _ (k, day) hgmem
    obtain ⟨h', t', rfl⟩ := List.exists_cons_of_ne_nil hne
    refine ⟨(k, h' :: t'), hgmem, by simp, ?_⟩
    rw [← hfg]
    simp only [processDay]
    refine ⟨by trivial,
      ⟨(t'.map ForecastItem.temp).foldl max h'.temp, ?_, by trivial⟩,
      ⟨(t'.map ForecastItem.temp).foldl min h'.temp, ?_, by trivial⟩,
      by trivial, by trivial, ?_⟩
    · rw [List.map_cons]
      exact foldl_max_spec h'.temp (t'.map ForecastItem.temp)
    · rw [List.map_cons]
      exact foldl_min_spec h'.temp (t'.map ForecastItem.temp)
    · show (h' :: t').foldl (fun sum d => sum + d.rain3h.getD 0) 0 =
        ((h' :: t').map fun d => d.rain3h.getD 0).sum
      rw [foldl_add_rain, zero_add]

/-- A two-sample forecast response, both samples on the same UTC day,
the first at local (UTC) hour 12. -/
def sampleForecastResponse : ForecastResponse :=
  { city := { name := "Tokyo", country := "JP" }
    list :=
      [ { dt := 43200, temp := 20, description := "noon sun", icon := "01d",
          rain3h := some 1 },
        { dt := 54000, temp := 10, description := "evening", icon := "02d",
          rain3h := none } ] }

/-- C8 witness: the theorem applied at the sample response with one
requested day. -/
theorem forecast_daily_construction_witness :
    (transformForecastData 0 sampleForecastResponse 1 "metric").forecasts.length ≤ 1 ∧
    ∀ f ∈ (transformForecastData 0 sampleForecastResponse 1 "metric").forecasts,
      ∃ g ∈ groupByDate (sampleForecastResponse.list.take (1 * 8)),
        g.2 ≠ [] ∧ f.date = g.1 ∧
        (∃ M, IsMaxOf M (g.2.map ForecastItem.temp) ∧ f.high = jsRound M) ∧
        (∃ m, IsMinOf m (g.2.map ForecastItem.temp) ∧ f.low = jsRound m) ∧
        f.description =
          ((g.2.find? fun d => localHours 0 d.dt == 12).getD g.2.headI).description ∧
        f.icon = ((g.2.find? fun d => localHours 0 d.dt == 12).getD g.2.headI).icon ∧
        f.precipitation = (g.2.map fun d => d.rain3h.getD 0).sum :=
  forecast_daily_construction 0 sampleForecastResponse 1 "metric" (by decide) (by decide)

end SynetWeather
